import Mathlib

/-!
Verification of the melting-tank prediction pipeline and bounded-history
aggregation engine.

The definitions below are shallow embeddings of the Python source:
`app/storage.py` (bounded FIFO history store), `app/dashboard.py`
(metrics aggregation), `app/inference.py` (post-processing and label
decision), `app/schemas.py` (sequence validation) and `app/utils.py`
(LSTM input preparation).  Machine floats are modelled as rationals,
timestamps as natural numbers, and the external scaler as an abstract
fallible function on row matrices.
-/

namespace MeltingTank

/-!
Storage layer, from `app/storage.py`.  A stored record holds a timestamp
and the raw probability passed to `add_prediction_result`.
-/

structure PredictionRecord where
  timestamp : Nat
  prob_ng : ℚ
deriving Repr, DecidableEq

/-- Capacity constant `MAX_HISTORY` from `app/storage.py`. -/
def MAX_HISTORY : Nat := 30

/-- Embedding of `add_prediction_result` from `app/storage.py`: build the
record, append it to the history, then pop the front element whenever the
length exceeds `MAX_HISTORY`. -/
def add_prediction_result (history : List PredictionRecord) (ts : Nat) (prob_ng : ℚ) :
    List PredictionRecord :=
  let history' := history ++ [{ timestamp := ts, prob_ng := prob_ng }]
  if MAX_HISTORY < history'.length then history'.drop 1 else history'

/-- Pair-to-record constructor used to describe sequences of appends. -/
def mkRecord (i : Nat × ℚ) : PredictionRecord :=
  { timestamp := i.1, prob_ng := i.2 }

/-- The history obtained by running `add_prediction_result` on each input in
turn, starting from the empty global list. -/
def buildHistory (inputs : List (Nat × ℚ)) : List PredictionRecord :=
  inputs.foldl (fun h i => add_prediction_result h i.1 i.2) []

/-!
Dashboard metrics, from `app/dashboard.py`.
-/

/-- Marker color used for failing (NG) points in `app/dashboard.py`. -/
def NG_COLOR : String := "#e74c3c"

/-- Marker color used for passing (OK) points in `app/dashboard.py`. -/
def OK_COLOR : String := "#2980b9"

/-- Constant `RECENT_WINDOW_DEFAULT` from `app/dashboard.py`. -/
def RECENT_WINDOW_DEFAULT : Nat := 10

/-- Constant `STREAK_N` from `app/dashboard.py`. -/
def STREAK_N : Nat := 3

structure LastInfo where
  prob_percent : ℚ
  status_label : String
  timestamp : Nat
deriving Repr, DecidableEq

structure RecentInfo where
  window : Nat
  avg_prob_percent : ℚ
  ng_ratio_recent : ℚ
  ng_count_recent : Nat
deriving Repr, DecidableEq

structure StreakInfo where
  streak_n : Nat
  is_streak : Bool
deriving Repr, DecidableEq

structure DashboardMetrics where
  has_data : Bool
  timestamps : List Nat
  prob_ng_percent : List ℚ
  threshold_percent : ℚ
  marker_colors : List String
  last : Option LastInfo
  recent : Option RecentInfo
  streak_ng : Option StreakInfo
deriving Repr, DecidableEq

/-- Embedding of `_build_dashboard_metrics` from `app/dashboard.py`, with the
history and threshold passed explicitly instead of read from module globals. -/
def build_dashboard_metrics (history : List PredictionRecord) (threshold : ℚ) :
    DashboardMetrics :=
  if history.isEmpty then
    { has_data := false
      timestamps := []
      prob_ng_percent := []
      threshold_percent := threshold * 100
      marker_colors := []
      last := none
      recent := none
      streak_ng := none }
  else
    let timestamps := history.map (fun rec => rec.timestamp)
    let prob_ng_raw := history.map (fun rec => rec.prob_ng)
    let prob_ng_percent := prob_ng_raw.map (fun p => p * 100)
    let threshold_percent := threshold * 100
    let is_ng_list := prob_ng_percent.map (fun p => decide (threshold_percent ≤ p))
    let marker_colors := is_ng_list.map (fun flag => if flag then NG_COLOR else OK_COLOR)
    let last_prob := prob_ng_raw.getLastD 0
    let last_prob_percent := prob_ng_percent.getLastD 0
    let last_ts := timestamps.getLastD 0
    let status_label := if threshold ≤ last_prob then "NG" else "OK"
    let window := min RECENT_WINDOW_DEFAULT prob_ng_percent.length
    let recent_slice := prob_ng_percent.drop (prob_ng_percent.length - window)
    let avg_prob_percent := recent_slice.sum / (window : ℚ)
    let ng_count_recent := (recent_slice.filter (fun p => decide (threshold_percent ≤ p))).length
    let ng_ratio_recent :=
      if 0 < window then ((ng_count_recent : ℚ) / (window : ℚ)) * 100 else 0
    let streak_info : Option StreakInfo :=
      if STREAK_N ≤ is_ng_list.length then
        if (is_ng_list.drop (is_ng_list.length - STREAK_N)).all (fun b => b) then
          some { streak_n := STREAK_N, is_streak := true }
        else none
      else none
    { has_data := true
      timestamps := timestamps
      prob_ng_percent := prob_ng_percent
      threshold_percent := threshold_percent
      marker_colors := marker_colors
      last := some { prob_percent := last_prob_percent
                     status_label := status_label
                     timestamp := last_ts }
      recent := some { window := window
                       avg_prob_percent := avg_prob_percent
                       ng_ratio_recent := ng_ratio_recent
                       ng_count_recent := ng_count_recent }
      streak_ng := streak_info }

/-!
Inference post-processing, from `app/inference.py`.
-/

/-- Embedding of `post_process` from `app/inference.py`: the label is "NG"
when the probability reaches the threshold (inclusive), else "OK". -/
def post_process (prob_ng : ℚ) (threshold : ℚ) : String × ℚ :=
  if threshold ≤ prob_ng then ("NG", threshold) else ("OK", threshold)

/-!
Request validation, from `app/schemas.py`.  A `Reading` carries the four
mandatory numeric fields; the pydantic model rejects any row missing one of
them or holding a non-numeric value, so rows of this structure type are
exactly the rows that passed field validation.
-/

structure Reading where
  MELT_TEMP : ℚ
  MOTORSPEED : ℚ
  MELT_WEIGHT : ℚ
  INSP : ℚ
deriving Repr, DecidableEq

/-- Constant `LSTM_SEQUENCE_LENGTH` from `app/schemas.py`. -/
def LSTM_SEQUENCE_LENGTH : Nat := 10

/-- Error message raised by `validate_sequence_length` in `app/schemas.py`
when the sequence length differs from `LSTM_SEQUENCE_LENGTH`. -/
def LENGTH_MISMATCH_MSG : String :=
  "Data integrity error: LSTM model requires exactly 10 data points."

/-- Embedding of `PredictRequest.validate_sequence_length` from
`app/schemas.py`: reject unless exactly `LSTM_SEQUENCE_LENGTH` readings. -/
def validate_sequence_length (readings : List Reading) : Except String (List Reading) :=
  if readings.length ≠ LSTM_SEQUENCE_LENGTH then
    Except.error LENGTH_MISMATCH_MSG
  else
    Except.ok readings

/-!
LSTM input preparation, from `app/utils.py`.  The scaler is an external
collaborator; it is modelled as a fallible function on row matrices.  The
two distinct Python exception classes raised by `prepare_lstm_input`
(`pandas.errors.EmptyDataError` and `ValueError`) are kept apart.
-/

inductive PrepError where
  | emptyData (msg : String)
  | valueError (msg : String)
deriving Repr, DecidableEq

/-- Error message of the empty-input check in `prepare_lstm_input`. -/
def EMPTY_DATA_MSG : String := "Input DataFrame is empty."

/-- Error message of the row-count re-check in `prepare_lstm_input`. -/
def INSUFFICIENT_ROWS_MSG : String :=
  "Insufficient data points for sequence length."

/-- Embedding of `prepare_lstm_input` from `app/utils.py`: reject an empty
matrix, apply the scaler (wrapping its failure), re-check the row count, and
reshape the last `sequence_length` scaled rows into a `(1, n, F)` tensor.
The tensor is a singleton list holding the selected rows. -/
def prepare_lstm_input (df_raw : List (List ℚ))
    (transform : List (List ℚ) → Except String (List (List ℚ)))
    (sequence_length : Nat) : Except PrepError (List (List (List ℚ))) :=
  if df_raw.isEmpty then
    Except.error (PrepError.emptyData EMPTY_DATA_MSG)
  else
    match transform df_raw with
    | Except.error e =>
        Except.error (PrepError.valueError
          ("Normalization failed: Input features mismatch. Original error: " ++ e))
    | Except.ok data_scaled =>
        if data_scaled.length < sequence_length then
          Except.error (PrepError.valueError INSUFFICIENT_ROWS_MSG)
        else
          Except.ok [data_scaled.drop (data_scaled.length - sequence_length)]

/-- A transform that returns its input unchanged, standing in for a scaler
that accepts the given matrix. -/
def idTransform : List (List ℚ) → Except String (List (List ℚ)) :=
  fun rows => Except.ok rows

/-- A ten-row, two-column window of zeros used as a concrete valid input. -/
def window10 : List (List ℚ) := List.replicate 10 [0, 0]

/-- Ten field-complete readings used as a concrete valid request. -/
def readings10 : List Reading :=
  List.replicate 10 { MELT_TEMP := 0, MOTORSPEED := 0, MELT_WEIGHT := 0, INSP := 0 }

/-- Thirty-one timestamped probabilities, one more than the capacity. -/
def inputs31 : List (Nat × ℚ) := (List.range 31).map (fun n => (n, 0))

/-!
Helper lemmas shared by the claim theorems.
-/

/-- Scaling both sides by 100 does not change a comparison of rationals. -/
theorem percent_le_iff (a b : ℚ) : a * 100 ≤ b * 100 ↔ a ≤ b :=
  ⟨fun h => le_of_mul_le_mul_right h (by norm_num),
   fun h => mul_le_mul_of_nonneg_right h (by norm_num)⟩

/-- One more append on the right of a run of appends. -/
theorem buildHistory_append (l : List (Nat × ℚ)) (x : Nat × ℚ) :
    buildHistory (l ++ [x]) = add_prediction_result (buildHistory l) x.1 x.2 := by
  simp [buildHistory, List.foldl_append]

/-- Closed form of a run of appends from the empty store: the history is the
input list mapped to records, with everything before the last
`MAX_HISTORY` entries dropped. -/
theorem buildHistory_eq (inputs : List (Nat × ℚ)) :
    buildHistory inputs = (inputs.map mkRecord).drop (inputs.length - MAX_HISTORY) := by
  induction inputs using List.reverseRecOn with
  | nil => rfl
  | append_singleton l x ih =>
      rw [buildHistory_append, ih]
      unfold add_prediction_result
      simp only [MAX_HISTORY] at *
      by_cases hL : l.length < 30
      · have h0 : l.length - 30 = 0 := by omega
        have hlen : ((l.map mkRecord).drop (l.length - 30) ++
            [({ timestamp := x.1, prob_ng := x.2 } : PredictionRecord)]).length =
            l.length + 1 := by
          simp [h0]
        rw [if_neg (by rw [hlen]; omega)]
        have h0' : l.length + 1 - 30 = 0 := by omega
        simp [h0, h0', mkRecord]
      · have hge : 30 ≤ l.length := by omega
        have hdlen : ((l.map mkRecord).drop (l.length - 30)).length = 30 := by
          simp
          omega
        have hlen : ((l.map mkRecord).drop (l.length - 30) ++
            [({ timestamp := x.1, prob_ng := x.2 } : PredictionRecord)]).length =
            30 + 1 := by
          simp [hdlen]
        rw [if_pos (by rw [hlen]; omega)]
        rw [List.drop_append_of_le_length (by rw [hdlen]; omega)]
        rw [List.drop_drop]
        have harith : l.length - 30 + 1 = l.length + 1 - 30 := by omega
        rw [harith]
        have hle : l.length + 1 - 30 ≤ (l.map mkRecord).length := by
          simp
        simp only [List.map_append, List.length_append, List.length_singleton]
        rw [List.drop_append_of_le_length (by simp)]
        simp [mkRecord]

/-- C1: starting from the empty store, the history length never exceeds
`MAX_HISTORY`; an append that would exceed capacity removes exactly the
single oldest record and no other; and after `MAX_HISTORY + k` appends
(`k > 0`) exactly `MAX_HISTORY` records remain, namely the inputs from the
`(k+1)`-th on in strict insertion (FIFO) order, so the first remaining
record is the `(k+1)`-th inserted one. -/
theorem C1_bounded_fifo_history (inputs : List (Nat × ℚ)) (k : Nat) (hk : 0 < k)
    (hlen : inputs.length = MAX_HISTORY + k) :
    (∀ l : List (Nat × ℚ), (buildHistory l).length ≤ MAX_HISTORY) ∧
    (∀ (h : List PredictionRecord) (ts : Nat) (p : ℚ),
        MAX_HISTORY < h.length + 1 →
        add_prediction_result h ts p =
          h.drop 1 ++ [{ timestamp := ts, prob_ng := p }]) ∧
    (buildHistory inputs).length = MAX_HISTORY ∧
    buildHistory inputs = (inputs.map mkRecord).drop k ∧
    (buildHistory inputs).head? = (inputs.map mkRecord)[k]? := by
  refine ⟨?_, ?_, ?_, ?_, ?_⟩
  · intro l
    rw [buildHistory_eq]
    simp only [List.length_drop, List.length_map, MAX_HISTORY]
    omega
  · intro h ts p hcap
    simp only [MAX_HISTORY] at hcap
    unfold add_prediction_result
    simp only [MAX_HISTORY]
    rw [if_pos (by simp; omega)]
    exact List.drop_append_of_le_length (by omega)
  · rw [buildHistory_eq]
    simp only [List.length_drop, List.length_map, hlen, MAX_HISTORY]
    omega
  · rw [buildHistory_eq, hlen]
    congr 1
    simp only [MAX_HISTORY]
    omega
  · rw [buildHistory_eq, hlen]
    have hsub : MAX_HISTORY + k - MAX_HISTORY = k := by
      simp only [MAX_HISTORY]
      omega
    rw [hsub, List.head?_eq_getElem?, List.getElem?_drop]
    simp

/-- Witness for C1: after thirty-one appends exactly thirty records remain,
the survivors being the second through thirty-first inputs in order. -/
theorem C1_bounded_fifo_history_witness :
    (buildHistory inputs31).length = MAX_HISTORY ∧
    buildHistory inputs31 = (inputs31.map mkRecord).drop 1 ∧
    (buildHistory inputs31).head? = (inputs31.map mkRecord)[1]? := by
  have h := C1_bounded_fifo_history inputs31 1 (by decide)
      (by simp [inputs31, MAX_HISTORY])
  exact ⟨h.2.2.1, h.2.2.2.1, h.2.2.2.2⟩

/-- C2 counterexample: the out-of-range probability 3/2 passed to the store
is kept unchanged as the stored value — it is neither clamped into [0,1]
nor rejected, contrary to the claimed clamp-or-reject behaviour. -/
theorem C2_counterexample :
    (add_prediction_result [] 0 (3/2)).map (fun r => r.prob_ng) = [3/2] ∧
    ¬ ((3/2 : ℚ) ≤ 1) := by
  constructor
  · simp [add_prediction_result, MAX_HISTORY]
  · norm_num

/-- C2 (amended): `add_prediction_result` is total — it succeeds for every
probability, valid or not, and the new record always carries the given
probability unchanged as the newest entry of the store; no value is ever
clamped and no error is ever raised. -/
theorem C2_append_stores_unchanged (history : List PredictionRecord) (ts : Nat) (p : ℚ) :
    (add_prediction_result history ts p).getLast? =
      some { timestamp := ts, prob_ng := p } := by
  unfold add_prediction_result
  by_cases hc : MAX_HISTORY <
      (history ++ [({ timestamp := ts, prob_ng := p } : PredictionRecord)]).length
  · rw [if_pos hc]
    simp only [MAX_HISTORY, List.length_append, List.length_singleton] at hc
    rw [List.drop_append_of_le_length (by omega)]
    exact List.getLast?_concat _
  · rw [if_neg hc]
    exact List.getLast?_concat _

/-- C8: on the empty history the metrics computation returns the no-data
snapshot: `has_data` is false and the last, recent and streak fields are all
absent, with empty series; no division or indexing is involved. -/
theorem C8_empty_history_snapshot (threshold : ℚ) :
    build_dashboard_metrics [] threshold =
      { has_data := false
        timestamps := []
        prob_ng_percent := []
        threshold_percent := threshold * 100
        marker_colors := []
        last := none
        recent := none
        streak_ng := none } := rfl

/-- C6: the sequence validator fails with the length-mismatch error for any
input whose length differs from `LSTM_SEQUENCE_LENGTH` = 10, and succeeds on
any sequence of exactly ten field-complete readings. -/
theorem C6_validator_length (readings : List Reading) :
    (readings.length ≠ LSTM_SEQUENCE_LENGTH →
      validate_sequence_length readings = Except.error LENGTH_MISMATCH_MSG) ∧
    (readings.length = LSTM_SEQUENCE_LENGTH →
      validate_sequence_length readings = Except.ok readings) := by
  constructor
  · intro h
    simp [validate_sequence_length, h]
  · intro h
    simp [validate_sequence_length, h]

/-- Witness for C6: the empty sequence is rejected with the length-mismatch
error and a concrete ten-reading sequence is accepted. -/
theorem C6_validator_length_witness :
    validate_sequence_length [] = Except.error LENGTH_MISMATCH_MSG ∧
    validate_sequence_length readings10 = Except.ok readings10 :=
  ⟨(C6_validator_length []).1 (by decide),
   (C6_validator_length readings10).2 (by decide)⟩

/-- C7 counterexample: on the empty matrix — which has fewer than ten rows —
`prepare_lstm_input` fails with the empty-input error of a distinct
exception class, not with the insufficient-rows error. -/
theorem C7_counterexample :
    prepare_lstm_input [] idTransform LSTM_SEQUENCE_LENGTH =
      Except.error (PrepError.emptyData EMPTY_DATA_MSG) ∧
    PrepError.emptyData EMPTY_DATA_MSG ≠
      PrepError.valueError INSUFFICIENT_ROWS_MSG := by
  exact ⟨rfl, by simp⟩

/-- C7 (amended): for a window of exactly `n` rows accepted by the scaler,
`prepare_lstm_input` returns the `(1, n, F)` tensor holding the scaler's
output rows in their original chronological order; a nonempty window of
fewer than `n` rows whose transform succeeds is rejected with the
insufficient-rows error, while the empty window is rejected earlier with
the empty-input error of a distinct exception class. -/
theorem C7_tensor_shape (df_raw : List (List ℚ))
    (transform : List (List ℚ) → Except String (List (List ℚ)))
    (n F : Nat) (scaled : List (List ℚ))
    (ht : transform df_raw = Except.ok scaled)
    (hrows : scaled.length = df_raw.length)
    (hcols : ∀ row ∈ scaled, row.length = F) :
    (df_raw.length = n → 0 < n →
      prepare_lstm_input df_raw transform n = Except.ok [scaled] ∧
      ([scaled] : List (List (List ℚ))).length = 1 ∧
      scaled.length = n ∧
      ∀ row ∈ scaled, row.length = F) ∧
    (0 < df_raw.length → df_raw.length < n →
      prepare_lstm_input df_raw transform n =
        Except.error (PrepError.valueError INSUFFICIENT_ROWS_MSG)) ∧
    (df_raw = [] →
      prepare_lstm_input df_raw transform n =
        Except.error (PrepError.emptyData EMPTY_DATA_MSG)) := by
  refine ⟨?_, ?_, ?_⟩
  · intro hdf hn
    have hne : df_raw ≠ [] := by
      intro h
      subst h
      simp at hdf
      omega
    refine ⟨?_, rfl, by omega, hcols⟩
    unfold prepare_lstm_input
    rw [if_neg (by simp [List.isEmpty_iff, hne])]
    simp only [ht]
    rw [if_neg (by omega)]
    rw [show scaled.length - n = 0 from by omega, List.drop_zero]
  · intro h1 h2
    have hne : df_raw ≠ [] := by
      intro h
      subst h
      simp at h1
    unfold prepare_lstm_input
    rw [if_neg (by simp [List.isEmpty_iff, hne])]
    simp only [ht]
    rw [if_pos (by omega)]
  · intro hdf
    subst hdf
    rfl

/-- Witness for C7 at a concrete ten-by-two window and an accepting scaler. -/
theorem C7_tensor_shape_witness :
    prepare_lstm_input window10 idTransform LSTM_SEQUENCE_LENGTH =
      Except.ok [window10] ∧
    ([window10] : List (List (List ℚ))).length = 1 ∧
    window10.length = LSTM_SEQUENCE_LENGTH := by
  have h := (C7_tensor_shape window10 idTransform LSTM_SEQUENCE_LENGTH 2 window10
      rfl rfl (by
        intro row hrow
        simp only [window10, List.mem_replicate] at hrow
        rw [hrow.2]
        rfl)).1 (by decide) (by decide)
  exact ⟨h.1, h.2.1, h.2.2.1⟩

/-- C9: when strictly more than `n` rows reach the normalizer and the scaler
accepts them, no error is raised: the output is the reshape of the final `n`
scaled rows, and with a row-wise scaler any rows preceding the final `n`
have no effect on the output tensor. -/
theorem C9_extra_rows_ignored (df_raw : List (List ℚ))
    (transform : List (List ℚ) → Except String (List (List ℚ)))
    (n : Nat) (scaled : List (List ℚ))
    (ht : transform df_raw = Except.ok scaled)
    (hrows : scaled.length = df_raw.length)
    (hmore : n < scaled.length) :
    prepare_lstm_input df_raw transform n =
      Except.ok [scaled.drop (scaled.length - n)] ∧
    ∀ (f : List ℚ → List ℚ) (extra window : List (List ℚ)),
      window.length = n → 0 < n →
      prepare_lstm_input (extra ++ window) (fun rows => Except.ok (rows.map f)) n =
        Except.ok [window.map f] := by
  constructor
  · have hne : df_raw ≠ [] := by
      intro h
      subst h
      simp only [List.length_nil] at hrows
      omega
    unfold prepare_lstm_input
    rw [if_neg (by simp [List.isEmpty_iff, hne])]
    simp only [ht]
    rw [if_neg (by omega)]
  · intro f extra window hwin hn
    have hne : extra ++ window ≠ [] := by
      intro h
      have hl := congrArg List.length h
      simp [hwin] at hl
      omega
    have hli : ((extra ++ window).map f).length = extra.length + n := by
      simp [hwin]
    unfold prepare_lstm_input
    rw [if_neg (by simp [List.isEmpty_iff, hne])]
    simp only []
    rw [if_neg (by rw [hli]; omega)]
    rw [hli, show extra.length + n - n = extra.length from by omega, List.map_append,
        List.drop_left' (by simp)]

/-- Witness for C9: twenty rows with a window length of ten keep exactly the
last ten scaled rows, and a prefix row does not change the output tensor. -/
theorem C9_extra_rows_ignored_witness :
    prepare_lstm_input (window10 ++ window10) idTransform LSTM_SEQUENCE_LENGTH =
      Except.ok [(window10 ++ window10).drop 10] ∧
    prepare_lstm_input ([[5, 5]] ++ window10)
        (fun rows => Except.ok (rows.map (fun r => r))) LSTM_SEQUENCE_LENGTH =
      Except.ok [window10.map (fun r => r)] := by
  have h := C9_extra_rows_ignored (window10 ++ window10) idTransform
      LSTM_SEQUENCE_LENGTH (window10 ++ window10) rfl rfl (by decide)
  refine ⟨?_, h.2 (fun r => r) [[5, 5]] window10 (by decide) (by decide)⟩
  have h1 := h.1
  rwa [show (window10 ++ window10).length - LSTM_SEQUENCE_LENGTH = 10 from by decide] at h1

/-- A one-record history with a failing probability, used as the concrete
dashboard input of several witnesses. -/
def hist1 : List PredictionRecord := [{ timestamp := 0, prob_ng := 1 }]

/-- The concrete one-record history is nonempty. -/
theorem hist1_length_pos : 0 < hist1.length := by
  simp [hist1]

/-- Filtering the percent-scaled probabilities against the percent-scaled
threshold keeps exactly the records whose raw probability reaches the raw
threshold. -/
theorem filter_percent_length (l : List PredictionRecord) (threshold : ℚ) :
    ((l.map (fun rec => rec.prob_ng * 100)).filter
        (fun p => decide (threshold * 100 ≤ p))).length =
      (l.filter (fun rec => decide (threshold ≤ rec.prob_ng))).length := by
  induction l with
  | nil => rfl
  | cons a t ih =>
      simp only [List.map_cons, List.filter_cons]
      by_cases hc : threshold ≤ a.prob_ng
      · rw [if_pos (decide_eq_true ((percent_le_iff threshold a.prob_ng).mpr hc)),
            if_pos (decide_eq_true hc)]
        simp [ih]
      · rw [if_neg (by
              simp only [decide_eq_true_eq]
              exact fun hx => hc ((percent_le_iff threshold a.prob_ng).mp hx)),
            if_neg (by
              simp only [decide_eq_true_eq]
              exact hc)]
        exact ih

/-- C5: the consecutive-failure alert is present (with `is_streak` true)
exactly when the history holds at least `STREAK_N` = 3 records and the last
three all classify as failing (probability at or above the threshold); in
every other case — including a passing record anywhere in the last three —
the field is absent. -/
theorem C5_streak_alert (history : List PredictionRecord) (threshold : ℚ) :
    (build_dashboard_metrics history threshold).streak_ng =
      if STREAK_N ≤ history.length ∧
          ∀ r ∈ history.drop (history.length - STREAK_N), threshold ≤ r.prob_ng
      then some { streak_n := STREAK_N, is_streak := true }
      else none := by
  by_cases hemp : history = []
  · subst hemp
    rw [if_neg (by simp [STREAK_N])]
    rfl
  · unfold build_dashboard_metrics
    rw [if_neg (by simp [List.isEmpty_iff, hemp])]
    dsimp only
    simp only [List.map_map, List.length_map, Function.comp_def]
    have hiff : ((history.map (fun rec =>
          decide (threshold * 100 ≤ rec.prob_ng * 100))).drop
            (history.length - STREAK_N)).all (fun b => b) = true ↔
        ∀ r ∈ history.drop (history.length - STREAK_N), threshold ≤ r.prob_ng := by
      rw [← List.map_drop, List.all_eq_true]
      constructor
      · intro hx r hr
        have hd := hx _ (List.mem_map_of_mem _ hr)
        simp only [decide_eq_true_eq] at hd
        exact (percent_le_iff threshold r.prob_ng).mp hd
      · intro hx b hb
        obtain ⟨r, hr, rfl⟩ := List.mem_map.mp hb
        simp only [decide_eq_true_eq]
        exact (percent_le_iff threshold r.prob_ng).mpr (hx r hr)
    by_cases h3 : STREAK_N ≤ history.length
    · rw [if_pos h3]
      by_cases hall : ∀ r ∈ history.drop (history.length - STREAK_N),
          threshold ≤ r.prob_ng
      · rw [if_pos (hiff.mpr hall), if_pos ⟨h3, hall⟩]
      · rw [if_neg (fun hc => hall (hiff.mp hc)), if_neg (fun hc => hall hc.2)]
    · rw [if_neg h3, if_neg (fun hc => h3 hc.1)]

/-- C3 counterexample: with a single failing record the failing fraction of
the window is 1/1 = 1, but the reported `ng_ratio_recent` is 100 — the
fraction scaled to a percentage, not the bare fraction claimed. -/
theorem C3_counterexample :
    (build_dashboard_metrics hist1 (1/2)).recent =
      some { window := 1, avg_prob_percent := 100, ng_ratio_recent := 100,
             ng_count_recent := 1 } ∧
    ((100 : ℚ) ≠ (1 : ℚ) / (1 : ℚ)) := by
  constructor
  · norm_num [build_dashboard_metrics, hist1, RECENT_WINDOW_DEFAULT, STREAK_N]
  · norm_num

/-- C3 (amended): for a nonempty history the recent block covers the last
`min 10 (length)` records: `window` is that count, `avg_prob_percent` is the
arithmetic mean of those records' probabilities expressed as percentages,
`ng_count_recent` counts the failing records of the window, and
`ng_ratio_recent` is the failing fraction of the window expressed as a
percentage — the fraction times 100, not the bare fraction. -/
theorem C3_recent_window_stats (history : List PredictionRecord) (threshold : ℚ)
    (h : history ≠ []) :
    (build_dashboard_metrics history threshold).recent =
      some { window := min RECENT_WINDOW_DEFAULT history.length
             avg_prob_percent :=
               ((history.drop
                     (history.length - min RECENT_WINDOW_DEFAULT history.length)).map
                   (fun rec => rec.prob_ng * 100)).sum /
                 ((min RECENT_WINDOW_DEFAULT history.length : ℕ) : ℚ)
             ng_ratio_recent :=
               ((((history.drop
                       (history.length - min RECENT_WINDOW_DEFAULT history.length)).filter
                     (fun rec => decide (threshold ≤ rec.prob_ng))).length : ℚ) /
                   ((min RECENT_WINDOW_DEFAULT history.length : ℕ) : ℚ)) * 100
             ng_count_recent :=
               ((history.drop
                     (history.length - min RECENT_WINDOW_DEFAULT history.length)).filter
                   (fun rec => decide (threshold ≤ rec.prob_ng))).length } := by
  have hpos : 0 < min RECENT_WINDOW_DEFAULT history.length :=
    Nat.lt_min.mpr ⟨by norm_num [RECENT_WINDOW_DEFAULT], List.length_pos.mpr h⟩
  unfold build_dashboard_metrics
  rw [if_neg (by simp [List.isEmpty_iff, h])]
  dsimp only
  simp only [List.map_map, List.length_map, Function.comp_def]
  rw [if_pos hpos]
  rw [← List.map_drop, filter_percent_length]

/-- Witness for C3 at the concrete one-record history. -/
theorem C3_recent_window_stats_witness :
    (build_dashboard_metrics hist1 (1/2)).recent =
      some { window := min RECENT_WINDOW_DEFAULT hist1.length
             avg_prob_percent :=
               ((hist1.drop
                     (hist1.length - min RECENT_WINDOW_DEFAULT hist1.length)).map
                   (fun rec => rec.prob_ng * 100)).sum /
                 ((min RECENT_WINDOW_DEFAULT hist1.length : ℕ) : ℚ)
             ng_ratio_recent :=
               ((((hist1.drop
                       (hist1.length - min RECENT_WINDOW_DEFAULT hist1.length)).filter
                     (fun rec => decide ((1/2 : ℚ) ≤ rec.prob_ng))).length : ℚ) /
                   ((min RECENT_WINDOW_DEFAULT hist1.length : ℕ) : ℚ)) * 100
             ng_count_recent :=
               ((hist1.drop
                     (hist1.length - min RECENT_WINDOW_DEFAULT hist1.length)).filter
                   (fun rec => decide ((1/2 : ℚ) ≤ rec.prob_ng))).length } :=
  C3_recent_window_stats hist1 (1/2) (by simp [hist1])

/-- C4: classification is inclusive at the boundary: `post_process` labels
"NG" exactly when the probability is at least the threshold, in particular
at exact equality; and each dashboard point is marked with the failing
color exactly when its probability is at least the threshold, equality
included. -/
theorem C4_inclusive_boundary (p threshold : ℚ) (history : List PredictionRecord)
    (h : history ≠ []) :
    ((post_process p threshold).1 = "NG" ↔ threshold ≤ p) ∧
    (post_process threshold threshold).1 = "NG" ∧
    ∀ i, (hi : i < history.length) →
      ((build_dashboard_metrics history threshold).marker_colors[i]? = some NG_COLOR ↔
        threshold ≤ (history.get ⟨i, hi⟩).prob_ng) := by
  refine ⟨?_, ?_, ?_⟩
  · unfold post_process
    by_cases hc : threshold ≤ p
    · rw [if_pos hc]
      exact iff_of_true rfl hc
    · rw [if_neg hc]
      have hne : ¬ ("OK" : String) = "NG" := by decide
      exact iff_of_false (fun hx => hne hx) hc
  · unfold post_process
    rw [if_pos le_rfl]
  · intro i hi
    unfold build_dashboard_metrics
    rw [if_neg (by simp [List.isEmpty_iff, h])]
    dsimp only
    simp only [List.map_map, Function.comp_def, List.getElem?_map,
      List.getElem?_eq_getElem hi, Option.map_some', List.get_eq_getElem]
    by_cases hc : threshold ≤ history[i].prob_ng
    · rw [if_pos (decide_eq_true ((percent_le_iff threshold history[i].prob_ng).mpr hc))]
      exact iff_of_true rfl hc
    · rw [if_neg (by
            simp only [decide_eq_true_eq]
            exact fun hx => hc ((percent_le_iff threshold history[i].prob_ng).mp hx))]
      exact iff_of_false (by simp [NG_COLOR, OK_COLOR]) hc

/-- Witness for C4 at the boundary value and the concrete one-record
history. -/
theorem C4_inclusive_boundary_witness :
    ((post_process 1 (1/2)).1 = "NG" ↔ (1/2 : ℚ) ≤ 1) ∧
    (post_process (1/2) (1/2)).1 = "NG" ∧
    ((build_dashboard_metrics hist1 (1/2)).marker_colors[0]? = some NG_COLOR ↔
      (1/2 : ℚ) ≤ (hist1.get ⟨0, hist1_length_pos⟩).prob_ng) := by
  have hw := C4_inclusive_boundary 1 (1/2) hist1 (by simp [hist1])
  exact ⟨hw.1, hw.2.1, hw.2.2 0 hist1_length_pos⟩

/-- C10: for a nonempty history the last point's marker color agrees with
the last-value status label: the final marker is the failing color exactly
when `last.status_label` is "NG"; the per-point percent-scale comparison and
the raw-scale label comparison decide identically over exact rationals. -/
theorem C10_last_marker_matches_label (history : List PredictionRecord) (threshold : ℚ)
    (h : history ≠ []) :
    ((build_dashboard_metrics history threshold).marker_colors.getLast? = some NG_COLOR ↔
      (build_dashboard_metrics history threshold).last.map
        (fun li => li.status_label) = some "NG") ∧
    ∀ q : ℚ, (threshold * 100 ≤ q * 100 ↔ threshold ≤ q) := by
  constructor
  · unfold build_dashboard_metrics
    rw [if_neg (by simp [List.isEmpty_iff, h])]
    dsimp only
    simp only [List.map_map, Function.comp_def, List.getLast?_map,
      List.getLastD_eq_getLast?, List.getLast?_eq_getLast _ h, Option.map_some',
      Option.getD_some]
    by_cases hc : threshold ≤ (history.getLast h).prob_ng
    · rw [if_pos (decide_eq_true
            ((percent_le_iff threshold (history.getLast h).prob_ng).mpr hc)),
          if_pos hc]
      exact iff_of_true rfl rfl
    · rw [if_neg (by
            simp only [decide_eq_true_eq]
            exact fun hx =>
              hc ((percent_le_iff threshold (history.getLast h).prob_ng).mp hx)),
          if_neg hc]
      exact iff_of_false (by simp [NG_COLOR, OK_COLOR]) (by simp)
  · intro q
    exact percent_le_iff threshold q

/-- Witness for C10 at the concrete one-record history, whose last point is
failing. -/
theorem C10_last_marker_matches_label_witness :
    ((build_dashboard_metrics hist1 (1/2)).marker_colors.getLast? = some NG_COLOR ↔
      (build_dashboard_metrics hist1 (1/2)).last.map
        (fun li => li.status_label) = some "NG") ∧
    (build_dashboard_metrics hist1 (1/2)).last.map
      (fun li => li.status_label) = some "NG" := by
  refine ⟨(C10_last_marker_matches_label hist1 (1/2) (by simp [hist1])).1, ?_⟩
  norm_num [build_dashboard_metrics, hist1]

end MeltingTank
